import Mathlib

/-!
Shallow embedding of the `civicauth` Go package (ironystock/civic-auth-go),
`pkg/civicauth/{tokens.go, client.go, config.go}`.

Modelling conventions:
* Go `string` is Lean `String`; Go byte slices are `List Nat` (each entry a byte);
  Go `int`/`int64` and `time.Time`/`time.Duration` values are Lean `Int`
  (times in nanoseconds since the Unix epoch, matching `time.Time`'s resolution;
  `time.Unix(sec, 0)` is `sec * 1000000000`).
* Go maps are association lists with map semantics (insert removes the old binding).
* Functions that perform I/O (HTTP fetches, `crypto/rand`, `crypto/sha256`,
  `crypto/x509` parsing, RSA signature verification) are parameterised by the
  result of that I/O; the pure control flow around them is translated verbatim.
* A Go function returning `(T, error)` becomes `Except GoErr T`; a Go runtime
  panic is the distinguished `GoErr.runtimePanic` value, which (unlike a returned
  error) is never wrapped by `fmt.Errorf("...: %w", err)` call sites.
-/

/-- A Go-level failure: either a returned `error` value (identified by its
message) or a runtime panic. -/
inductive GoErr where
  | err : String → GoErr
  | runtimePanic : String → GoErr
deriving DecidableEq, Repr

/-- `fmt.Errorf("<pre>%w", err)` wraps a returned error's message; a panic
propagates past every such call site unchanged. -/
def wrapErr (pre : String) : GoErr → GoErr
  | .err e => .err (pre ++ e)
  | .runtimePanic p => .runtimePanic p

/-- `TokenResponse` (config.go): the OAuth2 token response. -/
structure TokenResponse where
  accessToken : String
  refreshToken : String
  idToken : String
  tokenType : String
  expiresIn : Int
  scope : String
deriving DecidableEq, Repr

/-- The subset of `Claims` (config.go) that `ValidateIDToken` inspects. -/
structure Claims where
  iss : String
  sub : String
  aud : String
  exp : Int
  iat : Int
deriving DecidableEq, Repr

/-- The configuration fields of `Config` (config.go) that token validation
reads. -/
structure ClientConfig where
  clientID : String
  issuer : String
deriving DecidableEq, Repr

/-! ## In-memory token storage (tokens.go, `InMemoryTokenStorage`) -/

/-- `InMemoryTokenStorage`: a Go map from user id to `*TokenResponse`,
modelled as an association list with at most one binding per key. -/
structure InMemoryTokenStorage where
  tokens : List (String × TokenResponse)
deriving DecidableEq, Repr

/-- Go map insert `m[k] = v`: any previous binding for `k` is replaced. -/
def mapInsert {β : Type} (l : List (String × β)) (k : String) (v : β) :
    List (String × β) :=
  (k, v) :: l.filter (fun p => p.1 != k)

/-- `Store` (tokens.go lines 286-292): rejects an empty user id, otherwise
overwrites the map entry. -/
def Store (s : InMemoryTokenStorage) (userID : String) (tokens : TokenResponse) :
    Except GoErr InMemoryTokenStorage :=
  if userID = "" then .error (.err "user ID cannot be empty")
  else .ok ⟨mapInsert s.tokens userID tokens⟩

/-- `Retrieve` (tokens.go lines 295-306): rejects an empty user id, fails when
the user has no entry. -/
def Retrieve (s : InMemoryTokenStorage) (userID : String) : Except GoErr TokenResponse :=
  if userID = "" then .error (.err "user ID cannot be empty")
  else
    match s.tokens.lookup userID with
    | none => .error (.err "tokens not found for user")
    | some tokens => .ok tokens

/-- `Delete` (tokens.go lines 309-316): rejects an empty user id, otherwise
removes the entry (`delete` on a Go map, a no-op when absent). -/
def Delete (s : InMemoryTokenStorage) (userID : String) : Except GoErr InMemoryTokenStorage :=
  if userID = "" then .error (.err "user ID cannot be empty")
  else .ok ⟨s.tokens.filter (fun p => p.1 != userID)⟩

/-! ## Token lifecycle manager (tokens.go, `TokenRefreshManager.GetValidToken`) -/

/-- `GetValidToken` (tokens.go lines 333-363). `refresh` models
`Client.RefreshToken`, an HTTP POST whose outcome is injected. The returned
pair is (call result, storage state after the call). -/
def GetValidToken (refresh : String → Except GoErr TokenResponse)
    (s : InMemoryTokenStorage) (userID : String) :
    Except GoErr TokenResponse × InMemoryTokenStorage :=
  match Retrieve s userID with
  | .error e => (.error (wrapErr "failed to retrieve tokens: " e), s)
  | .ok tokens =>
    if tokens.refreshToken ≠ "" then
      match refresh tokens.refreshToken with
      | .error e => (.error (wrapErr "failed to refresh token: " e), s)
      | .ok newTokens =>
        let newTokens' :=
          if newTokens.refreshToken = "" then
            { newTokens with refreshToken := tokens.refreshToken }
          else newTokens
        match Store s userID newTokens' with
        | .error e => (.error (wrapErr "failed to store refreshed tokens: " e), s)
        | .ok s' => (.ok newTokens', s')
    else (.ok tokens, s)

/-! ## Token expiry check (tokens.go, `IsTokenExpired`) -/

/-- `IsTokenExpired` (tokens.go lines 257-264). `issuedAt` and `now` are
nanosecond timestamps; `expiresIn` is in seconds, so the expiry instant is
`issuedAt + expiresIn * 1000000000`. -/
def IsTokenExpired (tokenResp : TokenResponse) (issuedAt now : Int) : Bool :=
  if tokenResp.expiresIn ≤ 0 then false
  else decide (now > issuedAt + tokenResp.expiresIn * 1000000000)

/-! ## Helper lemmas about the storage map -/

theorem lookup_mapInsert {β : Type} (l : List (String × β)) (k : String) (v : β) :
    (mapInsert l k v).lookup k = some v := by
  simp [mapInsert, List.lookup]

theorem lookup_filter_ne {β : Type} (l : List (String × β)) (k : String) :
    (l.filter (fun p => p.1 != k)).lookup k = none := by
  induction l with
  | nil => rfl
  | cons p rest ih =>
    by_cases h : p.1 = k
    · simpa [List.filter, h] using ih
    · have hb : (p.1 != k) = true := by simp [bne_iff_ne, h]
      have hk : (k == p.1) = false := by
        simp only [beq_eq_false_iff_ne]
        exact fun he => h he.symm
      simp only [List.filter, hb, List.lookup, hk]
      exact ih

/-! ## Claim theorems: storage and lifecycle -/

/-- C9: for every non-empty user id and every token set `t`, `Store` followed
by `Retrieve` returns exactly `t`, and `Delete` followed by `Retrieve` fails
with the not-found error. -/
theorem store_retrieve_delete_roundtrip (s : InMemoryTokenStorage)
    (userID : String) (t : TokenResponse) (h : userID ≠ "") :
    (∃ s1, Store s userID t = .ok s1 ∧ Retrieve s1 userID = .ok t) ∧
    (∃ s2, Delete s userID = .ok s2 ∧
      Retrieve s2 userID = .error (.err "tokens not found for user")) := by
  constructor
  · refine ⟨⟨mapInsert s.tokens userID t⟩, ?_, ?_⟩
    · simp [Store, h]
    · simp [Retrieve, h, lookup_mapInsert]
  · refine ⟨⟨s.tokens.filter (fun p => p.1 != userID)⟩, ?_, ?_⟩
    · simp [Delete, h]
    · simp [Retrieve, h, lookup_filter_ne]

/-- Witness for C9 at a concrete store, user and token set. -/
theorem store_retrieve_delete_roundtrip_witness :
    (∃ s1, Store ⟨[]⟩ "user123" ⟨"a", "r", "", "Bearer", 3600, ""⟩ = .ok s1 ∧
      Retrieve s1 "user123" = .ok ⟨"a", "r", "", "Bearer", 3600, ""⟩) ∧
    (∃ s2, Delete ⟨[]⟩ "user123" = .ok s2 ∧
      Retrieve s2 "user123" = .error (.err "tokens not found for user")) :=
  store_retrieve_delete_roundtrip ⟨[]⟩ "user123" ⟨"a", "r", "", "Bearer", 3600, ""⟩
    (by decide)

/-- C7: when the stored token set has a non-empty refresh token and the
refresh call succeeds but returns an empty refresh token, `GetValidToken`
carries the old refresh token into the new token set, persists that merged
set, and returns it; the stored record afterwards still holds the previous
refresh token. -/
theorem getValidToken_keeps_old_refresh_token
    (refresh : String → Except GoErr TokenResponse)
    (s : InMemoryTokenStorage) (userID : String)
    (tokens newTokens : TokenResponse)
    (hret : Retrieve s userID = .ok tokens)
    (hrt : tokens.refreshToken ≠ "")
    (href : refresh tokens.refreshToken = .ok newTokens)
    (hempty : newTokens.refreshToken = "") :
    ∃ s', GetValidToken refresh s userID =
        (.ok { newTokens with refreshToken := tokens.refreshToken }, s') ∧
      Retrieve s' userID = .ok { newTokens with refreshToken := tokens.refreshToken } ∧
      ({ newTokens with refreshToken := tokens.refreshToken } :
        TokenResponse).refreshToken = tokens.refreshToken := by
  have huser : userID ≠ "" := by
    intro h
    rw [h] at hret
    simp [Retrieve] at hret
  refine ⟨⟨mapInsert s.tokens userID { newTokens with refreshToken := tokens.refreshToken }⟩,
    ?_, ?_, rfl⟩
  · simp [GetValidToken, hret, hrt, href, hempty, Store, huser]
  · simp [Retrieve, huser, lookup_mapInsert]

/-- Witness for C7 at a concrete store, user and refresh response. -/
theorem getValidToken_keeps_old_refresh_token_witness :
    ∃ s', GetValidToken (fun _ => .ok ⟨"a2", "", "", "Bearer", 3600, ""⟩)
        ⟨[("u1", ⟨"a1", "r1", "", "Bearer", 3600, ""⟩)]⟩ "u1" =
        (.ok ⟨"a2", "r1", "", "Bearer", 3600, ""⟩, s') ∧
      Retrieve s' "u1" = .ok ⟨"a2", "r1", "", "Bearer", 3600, ""⟩ ∧
      (⟨"a2", "r1", "", "Bearer", 3600, ""⟩ : TokenResponse).refreshToken = "r1" :=
  getValidToken_keeps_old_refresh_token
    (fun _ => .ok ⟨"a2", "", "", "Bearer", 3600, ""⟩)
    ⟨[("u1", ⟨"a1", "r1", "", "Bearer", 3600, ""⟩)]⟩ "u1"
    ⟨"a1", "r1", "", "Bearer", 3600, ""⟩ ⟨"a2", "", "", "Bearer", 3600, ""⟩
    rfl (by decide) rfl rfl

/-- C8: when the stored token set has a non-empty refresh token and the
refresh call fails, `GetValidToken` returns the wrapped refresh error and
leaves the storage state unchanged. -/
theorem getValidToken_refresh_failure_leaves_storage
    (refresh : String → Except GoErr TokenResponse)
    (s : InMemoryTokenStorage) (userID : String)
    (tokens : TokenResponse) (e : GoErr)
    (hret : Retrieve s userID = .ok tokens)
    (hrt : tokens.refreshToken ≠ "")
    (href : refresh tokens.refreshToken = .error e) :
    GetValidToken refresh s userID = (.error (wrapErr "failed to refresh token: " e), s) := by
  simp [GetValidToken, hret, hrt, href]

/-- Witness for C8 at a concrete store, user and failing refresh call. -/
theorem getValidToken_refresh_failure_leaves_storage_witness :
    GetValidToken (fun _ => .error (.err "boom"))
        ⟨[("u1", ⟨"a1", "r1", "", "Bearer", 3600, ""⟩)]⟩ "u1" =
      (.error (.err "failed to refresh token: boom"),
        ⟨[("u1", ⟨"a1", "r1", "", "Bearer", 3600, ""⟩)]⟩) :=
  getValidToken_refresh_failure_leaves_storage (fun _ => .error (.err "boom"))
    ⟨[("u1", ⟨"a1", "r1", "", "Bearer", 3600, ""⟩)]⟩ "u1"
    ⟨"a1", "r1", "", "Bearer", 3600, ""⟩ (.err "boom") rfl (by decide) rfl

/-- C10: when `expiresIn ≤ 0`, `IsTokenExpired` is `false` for every
issuance time and every current time. -/
theorem isTokenExpired_no_expiry_info (tokenResp : TokenResponse)
    (h : tokenResp.expiresIn ≤ 0) (issuedAt now : Int) :
    IsTokenExpired tokenResp issuedAt now = false := by
  simp [IsTokenExpired, h]

/-- Witness for C10: a token response with `expiresIn = 0` issued arbitrarily
far in the past is not expired. -/
theorem isTokenExpired_no_expiry_info_witness :
    IsTokenExpired ⟨"a", "", "", "Bearer", 0, ""⟩ (-86400000000000) 0 = false :=
  isTokenExpired_no_expiry_info ⟨"a", "", "", "Bearer", 0, ""⟩ (by decide)
    (-86400000000000) 0

/-! ## PKCE and state generation (client.go) -/

/-- The 64-character alphabet of `base64.RawURLEncoding`
(RFC 4648 §5, URL- and filename-safe, no padding). -/
def base64URLAlphabet : List Char :=
  ['A', 'B', 'C', 'D', 'E', 'F', 'G', 'H', 'I', 'J', 'K', 'L', 'M',
   'N', 'O', 'P', 'Q', 'R', 'S', 'T', 'U', 'V', 'W', 'X', 'Y', 'Z',
   'a', 'b', 'c', 'd', 'e', 'f', 'g', 'h', 'i', 'j', 'k', 'l', 'm',
   'n', 'o', 'p', 'q', 'r', 's', 't', 'u', 'v', 'w', 'x', 'y', 'z',
   '0', '1', '2', '3', '4', '5', '6', '7', '8', '9', '-', '_']

/-- The digit character for a 6-bit value. -/
def b64Char (i : Nat) : Char := base64URLAlphabet.getD i 'A'

/-- Encode a byte sequence in RFC 4648 base64url without padding: complete
3-byte groups become 4 digits, a 2-byte remainder 3 digits, a 1-byte
remainder 2 digits. -/
def b64EncodeChars : List Nat → List Char
  | [] => []
  | [b1] => [b64Char (b1 / 4), b64Char (b1 % 4 * 16)]
  | [b1, b2] => [b64Char (b1 / 4), b64Char (b1 % 4 * 16 + b2 / 16), b64Char (b2 % 16 * 4)]
  | b1 :: b2 :: b3 :: rest =>
      b64Char (b1 / 4) :: b64Char (b1 % 4 * 16 + b2 / 16)
        :: b64Char (b2 % 16 * 4 + b3 / 64) :: b64Char (b3 % 64) :: b64EncodeChars rest

/-- `base64.RawURLEncoding.EncodeToString`. -/
def base64RawURLEncode (bytes : List Nat) : String :=
  String.mk (b64EncodeChars bytes)

/-- A character is URL-safe for our purposes when it belongs to the
base64url alphabet. -/
def isURLSafeChar (c : Char) : Bool := base64URLAlphabet.contains c

/-- `generateCodeChallenge` (client.go lines 69-82). `randBytes` models the
32 bytes read from `crypto/rand`; `sha256` models `sha256.Sum256` applied to
the verifier string's bytes. Returns (code verifier, code challenge). -/
def generateCodeChallenge (sha256 : String → List Nat) (randBytes : List Nat) :
    String × String :=
  let codeVerifier := base64RawURLEncode randBytes
  let codeChallenge := base64RawURLEncode (sha256 codeVerifier)
  (codeVerifier, codeChallenge)

/-- `generateState` (client.go lines 85-91). `randBytes` models the 16 bytes
read from `crypto/rand`. -/
def generateState (randBytes : List Nat) : String :=
  base64RawURLEncode randBytes

/-! ## Helper lemmas about the base64url encoder -/

theorem b64EncodeChars_length : ∀ bytes : List Nat,
    (b64EncodeChars bytes).length = (bytes.length * 4 + 2) / 3
  | [] => rfl
  | [_] => by simp [b64EncodeChars]
  | [_, _] => by simp [b64EncodeChars]
  | _ :: _ :: _ :: rest => by
      simp only [b64EncodeChars, List.length_cons,
        b64EncodeChars_length rest]
      omega

theorem isURLSafeChar_b64Char (i : Nat) : isURLSafeChar (b64Char i) = true := by
  by_cases h : i < 64
  · revert h
    have : ∀ j, j < 64 → isURLSafeChar (b64Char j) = true := by decide
    exact this i
  · have hlen : base64URLAlphabet.length = 64 := by decide
    have : b64Char i = 'A' := by
      simp only [b64Char]
      exact List.getD_eq_default _ _ (by rw [hlen]; omega)
    rw [this]
    decide

theorem b64EncodeChars_urlsafe : ∀ (bytes : List Nat), ∀ c ∈ b64EncodeChars bytes,
    isURLSafeChar c = true
  | [], c, hc => by simp [b64EncodeChars] at hc
  | [b1], c, hc => by
      simp only [b64EncodeChars, List.mem_cons, List.not_mem_nil, or_false] at hc
      rcases hc with h | h <;> (subst h; exact isURLSafeChar_b64Char _)
  | [b1, b2], c, hc => by
      simp only [b64EncodeChars, List.mem_cons, List.not_mem_nil, or_false] at hc
      rcases hc with h | h | h <;> (subst h; exact isURLSafeChar_b64Char _)
  | b1 :: b2 :: b3 :: rest, c, hc => by
      simp only [b64EncodeChars, List.mem_cons] at hc
      rcases hc with h | h | h | h | h
      · subst h; exact isURLSafeChar_b64Char _
      · subst h; exact isURLSafeChar_b64Char _
      · subst h; exact isURLSafeChar_b64Char _
      · subst h; exact isURLSafeChar_b64Char _
      · exact b64EncodeChars_urlsafe rest c h

theorem base64RawURLEncode_length (bytes : List Nat) :
    (base64RawURLEncode bytes).length = (bytes.length * 4 + 2) / 3 := by
  simp [base64RawURLEncode, String.length, b64EncodeChars_length]

/-! ## Claim theorems: PKCE pair and state parameter -/

/-- C5: for every successful run of `generateCodeChallenge` (32 bytes read
from the entropy source), the code challenge is the unpadded base64url
encoding of the SHA-256 digest of the code verifier — a pure function of the
verifier — and the verifier is a URL-safe string of between 43 and 128
characters. -/
theorem generateCodeChallenge_spec (sha256 : String → List Nat)
    (randBytes : List Nat) (hrand : randBytes.length = 32) :
    (generateCodeChallenge sha256 randBytes).2 =
      base64RawURLEncode (sha256 (generateCodeChallenge sha256 randBytes).1) ∧
    43 ≤ (generateCodeChallenge sha256 randBytes).1.length ∧
    (generateCodeChallenge sha256 randBytes).1.length ≤ 128 ∧
    ∀ c ∈ (generateCodeChallenge sha256 randBytes).1.data, isURLSafeChar c = true := by
  have hlen : (generateCodeChallenge sha256 randBytes).1.length = 43 := by
    show (base64RawURLEncode randBytes).length = 43
    rw [base64RawURLEncode_length, hrand]
  refine ⟨rfl, by omega, by omega, ?_⟩
  intro c hc
  exact b64EncodeChars_urlsafe randBytes c hc

/-- Witness for C5 at a concrete digest function and entropy read. -/
theorem generateCodeChallenge_spec_witness :
    (generateCodeChallenge (fun _ => []) (List.replicate 32 0)).2 =
      base64RawURLEncode
        ((fun _ => ([] : List Nat))
          (generateCodeChallenge (fun _ => []) (List.replicate 32 0)).1) ∧
    43 ≤ (generateCodeChallenge (fun _ => []) (List.replicate 32 0)).1.length ∧
    (generateCodeChallenge (fun _ => []) (List.replicate 32 0)).1.length ≤ 128 ∧
    ∀ c ∈ (generateCodeChallenge (fun _ => []) (List.replicate 32 0)).1.data,
      isURLSafeChar c = true :=
  generateCodeChallenge_spec (fun _ => []) (List.replicate 32 0) (by decide)

/-- C6 counterexample: a successful `generateState` call (16 bytes read from
the entropy source) yields a 22-character string, so the claimed 43–128
character bound fails. -/
theorem generateState_not_43_chars :
    (generateState (List.replicate 16 0)).length = 22 ∧
    ¬(43 ≤ (generateState (List.replicate 16 0)).length ∧
      (generateState (List.replicate 16 0)).length ≤ 128) := by
  have h : (generateState (List.replicate 16 0)).length = 22 := by
    show (base64RawURLEncode (List.replicate 16 0)).length = 22
    rw [base64RawURLEncode_length]
    rfl
  refine ⟨h, ?_⟩
  rw [h]
  omega

/-- C6 (amended): every state value produced by a successful `generateState`
call is a 22-character string consisting only of URL-safe characters. -/
theorem generateState_spec (randBytes : List Nat) (hrand : randBytes.length = 16) :
    (generateState randBytes).length = 22 ∧
    ∀ c ∈ (generateState randBytes).data, isURLSafeChar c = true := by
  constructor
  · show (base64RawURLEncode randBytes).length = 22
    rw [base64RawURLEncode_length, hrand]
  · intro c hc
    exact b64EncodeChars_urlsafe randBytes c hc

/-- Witness for the amended C6 at a concrete entropy read. -/
theorem generateState_spec_witness :
    (generateState (List.replicate 16 7)).length = 22 ∧
    ∀ c ∈ (generateState (List.replicate 16 7)).data, isURLSafeChar c = true :=
  generateState_spec (List.replicate 16 7) (by decide)

/-! ## JWK set, key cache and key conversion (tokens.go) -/

/-- `JWK` (tokens.go): a JSON Web Key entry. -/
structure JWK where
  kty : String
  use : String
  kid : String
  x5t : String
  n : String
  e : String
  x5c : List String
deriving DecidableEq, Repr

/-- `rsa.PublicKey`: modulus and public exponent. -/
structure RSAPublicKey where
  N : Nat
  E : Int
deriving DecidableEq, Repr

/-- The mutable fields of `TokenManager` (`jwkSet`, `jwkCache`), plus a count
of JWK-set fetch attempts made so far, which identifies each HTTP fetch's
injected outcome and records how many fetches a call performed. -/
structure TMState where
  jwkSet : Option (List JWK)
  jwkCache : List (String × RSAPublicKey)
  fetchCount : Nat
deriving DecidableEq, Repr

/-- `fetchJWKSet` (tokens.go lines 50-82). `fetchResult n` is the injected
outcome (HTTP + JSON decoding) of the `n`-th fetch attempt. On success the
whole previous set is replaced (line 80, `tm.jwkSet = &jwkSet`); on failure
`tm.jwkSet` is untouched. -/
def fetchJWKSet (fetchResult : Nat → Except String (List JWK)) (st : TMState) :
    Except String Unit × TMState :=
  match fetchResult st.fetchCount with
  | .error e => (.error e, { st with fetchCount := st.fetchCount + 1 })
  | .ok keys => (.ok (), { st with jwkSet := some keys, fetchCount := st.fetchCount + 1 })

/-- The search loop at tokens.go lines 100-105 / 113-118: first entry whose
`Kid` equals the wanted key id. -/
def findKid (keys : List JWK) (kid : String) : Option JWK :=
  keys.find? (fun key => key.kid == kid)

/-- `jwkToRSAPublicKey` (tokens.go lines 138-186).

`decodeStd` models `base64.StdEncoding.DecodeString`, `decodeURL` models
`base64.RawURLEncoding.DecodeString`, and `parseCert` models
`x509.ParseCertificate` followed by reading the certificate's public key:
`.error e` is a parse failure, `.ok none` a certificate whose key is not an
RSA key, `.ok (some k)` an RSA key.

The modulus/exponent branch executes
`n.N = new(rsa.PublicKey).N.SetBytes(nBytes)` (line 176):
`new(rsa.PublicKey).N` is a nil `*big.Int`, and `big.Int.SetBytes` writes
through its receiver, so once both base64 decodes succeed this statement
dereferences nil and the branch panics instead of building the key. -/
def jwkToRSAPublicKey (decodeStd : String → Except String (List Nat))
    (parseCert : List Nat → Except String (Option RSAPublicKey))
    (decodeURL : String → Except String (List Nat)) (jwk : JWK) :
    Except GoErr RSAPublicKey :=
  if jwk.x5c.length > 0 then
    match decodeStd (jwk.x5c.headD "") with
    | .error e => .error (.err ("failed to decode X.509 certificate: " ++ e))
    | .ok certData =>
      match parseCert certData with
      | .error e => .error (.err ("failed to parse X.509 certificate: " ++ e))
      | .ok none => .error (.err "certificate does not contain RSA public key")
      | .ok (some rsaKey) => .ok rsaKey
  else if jwk.n = "" ∨ jwk.e = "" then
    .error (.err "JWK missing required parameters")
  else
    match decodeURL jwk.n with
    | .error e => .error (.err ("failed to decode N parameter: " ++ e))
    | .ok _nBytes =>
      match decodeURL jwk.e with
      | .error e => .error (.err ("failed to decode E parameter: " ++ e))
      | .ok _eBytes =>
        .error (.runtimePanic "runtime error: invalid memory address or nil pointer dereference")

/-- Lines 125-134 of `getPublicKey`: convert the located JWK and cache the
result under its key id. -/
def convertAndCache (decodeStd : String → Except String (List Nat))
    (parseCert : List Nat → Except String (Option RSAPublicKey))
    (decodeURL : String → Except String (List Nat))
    (st : TMState) (kid : String) (jwk : JWK) :
    Except GoErr RSAPublicKey × TMState :=
  match jwkToRSAPublicKey decodeStd parseCert decodeURL jwk with
  | .error e => (.error (wrapErr "failed to convert JWK to RSA public key: " e), st)
  | .ok publicKey =>
    (.ok publicKey, { st with jwkCache := mapInsert st.jwkCache kid publicKey })

/-- `getPublicKey` (tokens.go lines 85-135): cache lookup, a fetch only when
no set is held yet, a search, one forced re-fetch on a miss, then conversion
and caching. -/
def getPublicKey (fetchResult : Nat → Except String (List JWK))
    (decodeStd : String → Except String (List Nat))
    (parseCert : List Nat → Except String (Option RSAPublicKey))
    (decodeURL : String → Except String (List Nat))
    (st : TMState) (kid : String) : Except GoErr RSAPublicKey × TMState :=
  match st.jwkCache.lookup kid with
  | some key => (.ok key, st)
  | none =>
    let firstFetch : Except String Unit × TMState :=
      match st.jwkSet with
      | some _ => (.ok (), st)
      | none => fetchJWKSet fetchResult st
    match firstFetch with
    | (.error e, st1) => (.error (.err e), st1)
    | (.ok _, st1) =>
      match findKid (st1.jwkSet.getD []) kid with
      | some jwk => convertAndCache decodeStd parseCert decodeURL st1 kid jwk
      | none =>
        match fetchJWKSet fetchResult st1 with
        | (.error e, st2) => (.error (.err ("failed to refetch JWK set: " ++ e)), st2)
        | (.ok _, st2) =>
          match findKid (st2.jwkSet.getD []) kid with
          | none => (.error (.err ("key with kid " ++ kid ++ " not found")), st2)
          | some jwk => convertAndCache decodeStd parseCert decodeURL st2 kid jwk

/-! ## ID token validation (tokens.go, `ValidateIDToken`) -/

/-- The decoded JOSE header fields that `ValidateIDToken`'s key-resolution
callback reads. `kid = none` models a header whose `"kid"` entry is missing
or not a string. -/
structure TokenHeader where
  alg : String
  kid : Option String
deriving DecidableEq, Repr

/-- A structurally well-formed compact JWT, as seen after
`jwt.Parse`'s decoding: its header and its decoded claims. -/
structure IDToken where
  header : TokenHeader
  claims : Claims
deriving DecidableEq, Repr

/-- The `alg` header values whose registered `jwt` signing method has dynamic
type `*jwt.SigningMethodRSA`, i.e. the values for which the type assertion
`token.Method.(*jwt.SigningMethodRSA)` at tokens.go line 205 succeeds.
PS256/PS384/PS512 (`*jwt.SigningMethodRSAPSS`), ES*, HS*, EdDSA and `"none"`
are distinct method types, so the assertion fails for them. -/
def algIsRSA (alg : String) : Bool :=
  alg == "RS256" || alg == "RS384" || alg == "RS512"

/-- The key-resolution callback passed to `jwt.Parse` (tokens.go lines
191-210): read `kid` from the header, resolve the public key through
`getPublicKey`, then check the declared signing method. -/
def keyfunc (fetchResult : Nat → Except String (List JWK))
    (decodeStd : String → Except String (List Nat))
    (parseCert : List Nat → Except String (Option RSAPublicKey))
    (decodeURL : String → Except String (List Nat))
    (st : TMState) (header : TokenHeader) :
    Except GoErr RSAPublicKey × TMState :=
  match header.kid with
  | none => (.error (.err "token header missing kid"), st)
  | some kid =>
    match getPublicKey fetchResult decodeStd parseCert decodeURL st kid with
    | (.error e, st1) => (.error (wrapErr "failed to get public key: " e), st1)
    | (.ok publicKey, st1) =>
      if algIsRSA header.alg then (.ok publicKey, st1)
      else (.error (.err ("unexpected signing method: " ++ header.alg)), st1)

/-- `ValidateIDToken` (tokens.go lines 189-254).

`jwt.Parse` (golang-jwt v5, tokens.go line 191) is modelled as: run the
key-resolution callback; verify the RSA signature with the key it returned
(`verify` injects the cryptographic outcome); then run the parser's default
registered-claims validation, which with zero leeway requires
`now.Before(exp)` — a token whose `exp` is not strictly after `now` makes
`jwt.Parse` return `ErrTokenExpired` inside `ErrTokenInvalidClaims`. A
callback error, a bad signature, or that claims-validation failure surfaces
as the wrapped parse error of line 213. `exp` is modelled as always present
(it is a mandatory OIDC ID-token claim and a mandatory field of `Claims`).
The claims JSON round-trip of lines 221-236 is modelled as the
already-decoded `Claims` value carried by the token. `now` is the
`time.Now()` nanosecond timestamp, where `time.Unix(claims.Expiry, 0)` is
`claims.exp * 1000000000`; the explicit expiry comparison at line 249 is kept
verbatim, though it can never fire after the library's stricter check. -/
def ValidateIDToken (fetchResult : Nat → Except String (List JWK))
    (decodeStd : String → Except String (List Nat))
    (parseCert : List Nat → Except String (Option RSAPublicKey))
    (decodeURL : String → Except String (List Nat))
    (verify : IDToken → RSAPublicKey → Bool)
    (cfg : ClientConfig) (now : Int) (st : TMState) (tok : IDToken) :
    Except GoErr Claims × TMState :=
  match keyfunc fetchResult decodeStd parseCert decodeURL st tok.header with
  | (.error e, st1) => (.error (wrapErr "failed to parse and verify ID token: " e), st1)
  | (.ok publicKey, st1) =>
    if verify tok publicKey = false then
      (.error (.err "failed to parse and verify ID token: signature is invalid"), st1)
    else if ¬(now < tok.claims.exp * 1000000000) then
      (.error (.err
        "failed to parse and verify ID token: token has invalid claims: token is expired"),
        st1)
    else if tok.claims.iss ≠ cfg.issuer then
      (.error (.err ("invalid issuer: expected " ++ cfg.issuer ++ ", got "
        ++ tok.claims.iss)), st1)
    else if tok.claims.aud ≠ cfg.clientID then
      (.error (.err ("invalid audience: expected " ++ cfg.clientID ++ ", got "
        ++ tok.claims.aud)), st1)
    else if tok.claims.exp * 1000000000 < now then
      (.error (.err "token has expired"), st1)
    else
      (.ok tok.claims, st1)

/-! ## Helper lemma: the key-resolution callback and non-RSA algorithms -/

theorem keyfunc_non_rsa_errors (fetchResult : Nat → Except String (List JWK))
    (decodeStd : String → Except String (List Nat))
    (parseCert : List Nat → Except String (Option RSAPublicKey))
    (decodeURL : String → Except String (List Nat))
    (st : TMState) (header : TokenHeader) (h : algIsRSA header.alg = false) :
    ∃ e st1, keyfunc fetchResult decodeStd parseCert decodeURL st header =
      (.error e, st1) := by
  cases hkid : header.kid with
  | none => exact ⟨.err "token header missing kid", st, by simp [keyfunc, hkid]⟩
  | some kid =>
    rcases hgp : getPublicKey fetchResult decodeStd parseCert decodeURL st kid with ⟨r, st1⟩
    cases r with
    | error e =>
      exact ⟨wrapErr "failed to get public key: " e, st1, by simp [keyfunc, hkid, hgp]⟩
    | ok key =>
      exact ⟨.err ("unexpected signing method: " ++ header.alg), st1,
        by simp [keyfunc, hkid, hgp, h]⟩

/-! ## Claim theorems: ID token validation -/

/-- C4 (code bug at the failing input): a JWK carrying no certificate chain
but well-formed base64url modulus and exponent parameters makes
`jwkToRSAPublicKey` hit the nil `*big.Int` dereference of
`new(rsa.PublicKey).N.SetBytes(nBytes)` and panic instead of returning the
reconstructed RSA key. -/
theorem jwkToRSAPublicKey_modulus_branch_panics :
    jwkToRSAPublicKey (fun _ => .error "unused") (fun _ => .ok none)
        (fun _ => .ok [1, 0, 1])
        ⟨"RSA", "sig", "key-1", "", "AQAB", "AQAB", []⟩ =
      .error (.runtimePanic "runtime error: invalid memory address or nil pointer dereference") :=
  rfl

/-- C3 counterexample: with a key set already fetched and held in memory, a
key id missing from the cache triggers only one key-set fetch (the forced
re-fetch) before the unknown-key failure — the final fetch count is 1, not
the claimed 2. -/
theorem getPublicKey_one_fetch_when_set_held :
    getPublicKey (fun _ => .ok []) (fun _ => .error "unused") (fun _ => .ok none)
        (fun _ => .error "unused") ⟨some [], [], 0⟩ "k1" =
      (.error (.err "key with kid k1 not found"), ⟨some [], [], 1⟩) ∧
    (1 : Nat) ≠ 2 :=
  ⟨rfl, by decide⟩

/-- C3 (amended): for a key id absent from the cache, when no key set has
been fetched yet, exactly two key-set fetches occur: if the kid is absent
from both fetched sets the call fails with the unknown-key error and the
second set wholly replaces the first, and if the kid is present in the
second set and its JWK converts, the key is cached and returned. -/
theorem getPublicKey_two_fetches (fetchResult : Nat → Except String (List JWK))
    (decodeStd : String → Except String (List Nat))
    (parseCert : List Nat → Except String (Option RSAPublicKey))
    (decodeURL : String → Except String (List Nat))
    (st : TMState) (kid : String) (keys1 keys2 : List JWK)
    (hmiss : st.jwkCache.lookup kid = none)
    (hempty : st.jwkSet = none)
    (hf1 : fetchResult st.fetchCount = .ok keys1)
    (h1 : findKid keys1 kid = none)
    (hf2 : fetchResult (st.fetchCount + 1) = .ok keys2) :
    (findKid keys2 kid = none →
      getPublicKey fetchResult decodeStd parseCert decodeURL st kid =
        (.error (.err ("key with kid " ++ kid ++ " not found")),
          { st with jwkSet := some keys2, fetchCount := st.fetchCount + 2 })) ∧
    (∀ jwk key, findKid keys2 kid = some jwk →
      jwkToRSAPublicKey decodeStd parseCert decodeURL jwk = .ok key →
      getPublicKey fetchResult decodeStd parseCert decodeURL st kid =
        (.ok key, { st with jwkSet := some keys2, fetchCount := st.fetchCount + 2, jwkCache := mapInsert st.jwkCache kid key })) := by
  constructor
  · intro h2
    simp [getPublicKey, hmiss, hempty, fetchJWKSet, hf1, h1, hf2, h2]
  · intro jwk key h2 hconv
    simp [getPublicKey, hmiss, hempty, fetchJWKSet, hf1, h1, hf2, h2,
      convertAndCache, hconv]

/-- Witness for the amended C3: both fetch outcomes concrete; the kid appears
only in the second fetched set, is converted from its certificate and is
cached, and the call ends with fetch count 2. -/
theorem getPublicKey_two_fetches_witness :
    getPublicKey
        (fun n => if n = 0 then .ok [] else .ok [⟨"RSA", "sig", "k1", "", "", "", ["c"]⟩])
        (fun _ => .ok [1]) (fun _ => .ok (some ⟨3233, 17⟩)) (fun _ => .error "unused")
        ⟨none, [], 0⟩ "k1" =
      (.ok ⟨3233, 17⟩,
        ⟨some [⟨"RSA", "sig", "k1", "", "", "", ["c"]⟩], [("k1", ⟨3233, 17⟩)], 2⟩) :=
  (getPublicKey_two_fetches
      (fun n => if n = 0 then .ok [] else .ok [⟨"RSA", "sig", "k1", "", "", "", ["c"]⟩])
      (fun _ => .ok [1]) (fun _ => .ok (some ⟨3233, 17⟩)) (fun _ => .error "unused")
      ⟨none, [], 0⟩ "k1" [] [⟨"RSA", "sig", "k1", "", "", "", ["c"]⟩]
      rfl rfl rfl rfl rfl).2
    ⟨"RSA", "sig", "k1", "", "", "", ["c"]⟩ ⟨3233, 17⟩ rfl rfl

/-- C1 counterexample: a token declaring HS256 whose kid is present in the
held key set is rejected, but only after the signing key has been resolved
and inserted into the key cache (empty before the call, holding the key
after it) — the rejection does not precede key resolution. -/
theorem validateIDToken_non_rsa_resolves_key_first :
    (ValidateIDToken (fun _ => .ok []) (fun _ => .ok [1]) (fun _ => .ok (some ⟨3233, 17⟩))
        (fun _ => .error "unused") (fun _ _ => true) ⟨"client-1", "https://issuer"⟩ 0
        ⟨some [⟨"RSA", "sig", "k1", "", "", "", ["c"]⟩], [], 0⟩
        ⟨⟨"HS256", some "k1"⟩, ⟨"https://issuer", "sub", "client-1", 100, 0⟩⟩ =
      (.error (.err "failed to parse and verify ID token: unexpected signing method: HS256"),
        ⟨some [⟨"RSA", "sig", "k1", "", "", "", ["c"]⟩], [("k1", ⟨3233, 17⟩)], 0⟩)) ∧
    ([] : List (String × RSAPublicKey)).lookup "k1" = none :=
  ⟨rfl, rfl⟩

/-- C1 (amended): every token whose declared algorithm is not an RSA
signature scheme is rejected by `ValidateIDToken` with an error — claims are
never returned — though the rejection happens inside the key-resolution
callback after the signing key has been resolved, not before. -/
theorem validateIDToken_rejects_non_rsa_alg (fetchResult : Nat → Except String (List JWK))
    (decodeStd : String → Except String (List Nat))
    (parseCert : List Nat → Except String (Option RSAPublicKey))
    (decodeURL : String → Except String (List Nat))
    (verify : IDToken → RSAPublicKey → Bool)
    (cfg : ClientConfig) (now : Int) (st : TMState) (tok : IDToken)
    (h : algIsRSA tok.header.alg = false) :
    ∃ e st1, ValidateIDToken fetchResult decodeStd parseCert decodeURL verify
      cfg now st tok = (.error e, st1) := by
  obtain ⟨e, st1, hk⟩ :=
    keyfunc_non_rsa_errors fetchResult decodeStd parseCert decodeURL st tok.header h
  refine ⟨wrapErr "failed to parse and verify ID token: " e, st1, ?_⟩
  unfold ValidateIDToken
  rw [hk]

/-- Witness for the amended C1: a concrete token declaring `"none"` as its
algorithm is rejected. -/
theorem validateIDToken_rejects_non_rsa_alg_witness :
    ∃ e st1, ValidateIDToken (fun _ => .ok []) (fun _ => .ok [1])
      (fun _ => .ok (some ⟨3233, 17⟩)) (fun _ => .error "unused") (fun _ _ => true)
      ⟨"client-1", "https://issuer"⟩ 0 ⟨none, [("k1", ⟨3233, 17⟩)], 0⟩
      ⟨⟨"none", some "k1"⟩, ⟨"https://issuer", "sub", "client-1", 100, 0⟩⟩ =
      (.error e, st1) :=
  validateIDToken_rejects_non_rsa_alg (fun _ => .ok []) (fun _ => .ok [1])
    (fun _ => .ok (some ⟨3233, 17⟩)) (fun _ => .error "unused") (fun _ _ => true)
    ⟨"client-1", "https://issuer"⟩ 0 ⟨none, [("k1", ⟨3233, 17⟩)], 0⟩
    ⟨⟨"none", some "k1"⟩, ⟨"https://issuer", "sub", "client-1", 100, 0⟩⟩ rfl

/-- C2 counterexample: a signature-valid token whose issuer differs from the
configured issuer and whose `exp` is in the past is rejected with the wrapped
token-is-expired parse error, not with the claimed issuer-mismatch error —
expiry is validated inside `jwt.Parse` (golang-jwt v5's default claims
validation), before the explicit issuer check at tokens.go line 239 can run. -/
theorem validateIDToken_expiry_error_precedes_issuer_check :
    (ValidateIDToken (fun _ => .ok []) (fun _ => .error "unused") (fun _ => .ok none)
        (fun _ => .error "unused") (fun _ _ => true) ⟨"client-1", "https://issuer"⟩
        (200 * 1000000000) ⟨none, [("k1", ⟨3233, 17⟩)], 0⟩
        ⟨⟨"RS256", some "k1"⟩, ⟨"https://evil", "sub", "client-1", 100, 0⟩⟩).1 =
      .error (.err
        "failed to parse and verify ID token: token has invalid claims: token is expired") ∧
    "https://evil" ≠ "https://issuer" ∧
    GoErr.err
        "failed to parse and verify ID token: token has invalid claims: token is expired" ≠
      GoErr.err "invalid issuer: expected https://issuer, got https://evil" :=
  ⟨rfl, by decide, by decide⟩

/-- C2 (amended): once the key-resolution callback has succeeded and the
signature verifies, expiry is validated first — inside `jwt.Parse`'s default
claims validation, which rejects with the wrapped token-is-expired parse
error exactly when `exp` is not strictly after the current time (so every
token whose `exp` is in the past is rejected with that expiry error); only
then do the explicit checks run, issuer before audience, short-circuiting on
the first failure with a distinct error for each: issuer-mismatch when `iss`
differs, audience-mismatch when `aud` differs; a token passing all three
checks yields its claims (the explicit expiry check at tokens.go line 249
never fires). -/
theorem validateIDToken_claim_check_order (fetchResult : Nat → Except String (List JWK))
    (decodeStd : String → Except String (List Nat))
    (parseCert : List Nat → Except String (Option RSAPublicKey))
    (decodeURL : String → Except String (List Nat))
    (verify : IDToken → RSAPublicKey → Bool)
    (cfg : ClientConfig) (now : Int) (st : TMState) (tok : IDToken)
    (key : RSAPublicKey) (st1 : TMState)
    (hk : keyfunc fetchResult decodeStd parseCert decodeURL st tok.header = (.ok key, st1))
    (hv : verify tok key = true) :
    (¬(now < tok.claims.exp * 1000000000) →
      ValidateIDToken fetchResult decodeStd parseCert decodeURL verify cfg now st tok =
        (.error (.err
          "failed to parse and verify ID token: token has invalid claims: token is expired"),
          st1)) ∧
    (now < tok.claims.exp * 1000000000 → tok.claims.iss ≠ cfg.issuer →
      ValidateIDToken fetchResult decodeStd parseCert decodeURL verify cfg now st tok =
        (.error (.err ("invalid issuer: expected " ++ cfg.issuer ++ ", got "
          ++ tok.claims.iss)), st1)) ∧
    (now < tok.claims.exp * 1000000000 → tok.claims.iss = cfg.issuer →
      tok.claims.aud ≠ cfg.clientID →
      ValidateIDToken fetchResult decodeStd parseCert decodeURL verify cfg now st tok =
        (.error (.err ("invalid audience: expected " ++ cfg.clientID ++ ", got "
          ++ tok.claims.aud)), st1)) ∧
    (now < tok.claims.exp * 1000000000 → tok.claims.iss = cfg.issuer →
      tok.claims.aud = cfg.clientID →
      ValidateIDToken fetchResult decodeStd parseCert decodeURL verify cfg now st tok =
        (.ok tok.claims, st1)) := by
  refine ⟨?_, ?_, ?_, ?_⟩
  · intro hexp
    simp [ValidateIDToken, hk, hv, hexp]
  · intro hexp hiss
    simp [ValidateIDToken, hk, hv, hexp, hiss]
  · intro hexp hiss haud
    simp [ValidateIDToken, hk, hv, hexp, hiss, haud]
  · intro hexp hiss haud
    have hdead : ¬(tok.claims.exp * 1000000000 < now) := by omega
    simp [ValidateIDToken, hk, hv, hexp, hiss, haud, hdead]

/-- Witness for the amended C2: a signature-valid token with a wrong issuer
and an unexpired `exp` is rejected with the issuer-mismatch error. -/
theorem validateIDToken_claim_check_order_witness :
    ValidateIDToken (fun _ => .ok []) (fun _ => .error "unused") (fun _ => .ok none)
        (fun _ => .error "unused") (fun _ _ => true) ⟨"client-1", "https://issuer"⟩
        (50 * 1000000000) ⟨none, [("k1", ⟨3233, 17⟩)], 0⟩
        ⟨⟨"RS256", some "k1"⟩, ⟨"https://evil", "sub", "client-1", 100, 0⟩⟩ =
      (.error (.err "invalid issuer: expected https://issuer, got https://evil"),
        ⟨none, [("k1", ⟨3233, 17⟩)], 0⟩) :=
  ((validateIDToken_claim_check_order (fun _ => .ok []) (fun _ => .error "unused")
      (fun _ => .ok none) (fun _ => .error "unused") (fun _ _ => true)
      ⟨"client-1", "https://issuer"⟩ (50 * 1000000000) ⟨none, [("k1", ⟨3233, 17⟩)], 0⟩
      ⟨⟨"RS256", some "k1"⟩, ⟨"https://evil", "sub", "client-1", 100, 0⟩⟩
      ⟨3233, 17⟩ ⟨none, [("k1", ⟨3233, 17⟩)], 0⟩ rfl rfl).2.1
    (by decide) (by decide))
